import Mathlib

/-!
Verification development for the news summarization pipeline in
`scripts/collect_news.py` (class `LLMSummarizer`).

The Python functions are shallowly embedded as pure Lean functions over
`String` / `List Char`:
* Python strings are Lean `String`s; character-level work happens on `.data`.
* `str.lower()` / `str.upper()` are `Char.toLower` / `Char.toUpper`
  (exact for ASCII, which covers every keyword and every test string).
* `re.split(r'[.!?]+', s)` is `splitPunct`, splitting on maximal runs.
* `re.sub(r'\s+', ' ', s)` is `collapseWs`; the URL-removal `re.sub`
  is `removeUrls` (the regex character class reduces to `urlChar`).
* The `transformers` pipeline object is an abstract parameter
  `Option (String → Nat → Nat → Option String)`: `none` for an absent model
  (`self.summarizer is None`), and an inner `none` result for a call that
  raises (caught by the `except` branch of `ai_summarize`).
* The classifier's float scores (`research_score + breakthrough_score * 0.5`)
  are kept in `ℕ` doubled (see `codeResolve`): every Python value there is an
  exact multiple of 0.5, so comparisons of doubled integers are exactly the
  Python float comparisons.
-/

/-- Python `\s` for `re.sub(r'\s+', ' ', text)` and `str.strip()`:
space, tab, newline, carriage return, vertical tab, form feed. -/
def pyIsSpace (c : Char) : Bool :=
  c = ' ' || c = '\t' || c = '\n' || c = '\r' || c = '\x0b' || c = '\x0c'

/-- The sentence-terminal characters of `re.split(r'[.!?]+', text)`
(also the terminal-punctuation set `'.!?'` of `enhance_summary`). -/
def isPunct (c : Char) : Bool :=
  c = '.' || c = '!' || c = '?'

/-- Python's substring test `needle in hay`. -/
def containsSub (needle : List Char) : List Char → Bool
  | [] => needle.isEmpty
  | c :: rest => needle.isPrefixOf (c :: rest) || containsSub needle rest

/-- Python `str.strip()` on a character list. -/
def stripChars (l : List Char) : List Char :=
  ((l.dropWhile pyIsSpace).reverse.dropWhile pyIsSpace).reverse

/-- `str.strip()` as a `String` operation. -/
def stripStr (s : String) : String :=
  String.mk (stripChars s.data)

theorem length_dropWhile_le (p : Char → Bool) :
    ∀ l : List Char, (l.dropWhile p).length ≤ l.length
  | [] => Nat.le_refl _
  | a :: l => by
    rw [List.dropWhile]
    cases p a with
    | true => exact Nat.le_succ_of_le (length_dropWhile_le p l)
    | false => exact Nat.le_refl _

/-- One-pass splitter behind `splitPunct`.  `prevPunct` records whether the
previous character belonged to a delimiter run (so the rest of the run emits
nothing); `acc` is the current fragment, reversed. -/
def splitGo (prevPunct : Bool) (acc : List Char) : List Char → List (List Char)
  | [] => [acc.reverse]
  | c :: rest =>
    if isPunct c then
      if prevPunct then splitGo true acc rest
      else acc.reverse :: splitGo true [] rest
    else splitGo false (c :: acc) rest

/-- `re.split(r'[.!?]+', text)`: split on maximal runs of `.`, `!`, `?`.
A run between two non-delimiter stretches produces one boundary (no empty
fragment inside the run), but a leading or trailing run yields an empty
fragment at that end, exactly as Python's `re.split`. -/
def splitPunct (l : List Char) : List (List Char) :=
  splitGo false [] l

/-- One-pass scanner behind `collapseWs`: `prevSpace` records whether the
previous character was whitespace, so a run contributes a single space. -/
def collapseGo (prevSpace : Bool) : List Char → List Char
  | [] => []
  | c :: rest =>
    if pyIsSpace c then
      if prevSpace then collapseGo true rest
      else ' ' :: collapseGo true rest
    else c :: collapseGo false rest

/-- `re.sub(r'\s+', ' ', text)`: each maximal whitespace run becomes one space. -/
def collapseWs (l : List Char) : List Char :=
  collapseGo false l

/-- The character class of the URL regex in `clean_text`:
`[a-zA-Z]`, `[0-9]`, `[$-_@.&+]` (i.e. the code-point range 0x24–0x5F,
which absorbs the digits and the extra literals), `[!*\(\),]`
(everything but `!` already lies in 0x24–0x5F), and `%xx` escapes
(absorbed as well). -/
def urlChar (c : Char) : Bool :=
  c.isAlpha || c = '!' || (0x24 ≤ c.toNat && c.toNat ≤ 0x5F)

/-- One attempt of the URL regex at the head of `l`:
`http[s]?://` followed by at least one `urlChar`; returns the rest of
the input after the (greedy, maximal) match. -/
def matchUrl (l : List Char) : Option (List Char) :=
  let afterScheme : Option (List Char) :=
    if "https://".data.isPrefixOf l then some (l.drop 8)
    else if "http://".data.isPrefixOf l then some (l.drop 7)
    else none
  match afterScheme with
  | none => none
  | some r => if (r.takeWhile urlChar).isEmpty then none else some (r.dropWhile urlChar)

theorem matchUrl_length_lt {l r : List Char} (h : matchUrl l = some r) :
    r.length < l.length := by
  unfold matchUrl at h
  by_cases h8 : "https://".data.isPrefixOf l
  · simp only [h8, if_true] at h
    by_cases he : ((l.drop 8).takeWhile urlChar).isEmpty
    · simp [he] at h
    · have h' : (l.drop 8).dropWhile urlChar = r := by simpa [he] using h
      have h8' : 8 ≤ l.length := by
        have := (List.isPrefixOf_iff_prefix.mp h8).length_le
        simpa using this
      calc r.length = ((l.drop 8).dropWhile urlChar).length := by rw [h']
        _ ≤ (l.drop 8).length := length_dropWhile_le _ _
        _ = l.length - 8 := by simp
        _ < l.length := by omega
  · by_cases h7 : "http://".data.isPrefixOf l
    · simp only [h8, if_false, h7, if_true] at h
      by_cases he : ((l.drop 7).takeWhile urlChar).isEmpty
      · simp [he] at h
      · have h' : (l.drop 7).dropWhile urlChar = r := by simpa [he] using h
        have h7' : 7 ≤ l.length := by
          have := (List.isPrefixOf_iff_prefix.mp h7).length_le
          simpa using this
        calc r.length = ((l.drop 7).dropWhile urlChar).length := by rw [h']
          _ ≤ (l.drop 7).length := length_dropWhile_le _ _
          _ = l.length - 7 := by simp
          _ < l.length := by omega
    · simp [h8, h7] at h

/-- The scan behind `removeUrls`, structurally recursive on a fuel argument
so that it reduces in the kernel.  Every step strictly shortens the input
(`matchUrl_length_lt`), so fuel `l.length` always suffices. -/
def removeUrlsFuel : Nat → List Char → List Char
  | _, [] => []
  | 0, _ :: _ => []
  | fuel + 1, c :: rest =>
    match matchUrl (c :: rest) with
    | some r => removeUrlsFuel fuel r
    | none => c :: removeUrlsFuel fuel rest

/-- `re.sub(url_regex, '', text)`: scan left to right, delete each
non-overlapping match, keep everything else. -/
def removeUrls (l : List Char) : List Char :=
  removeUrlsFuel l.length l

/-- Any fuel at least the input length gives the same scan, so `removeUrls`
is the fuel-free fixpoint of its recursion. -/
theorem removeUrlsFuel_congr :
    ∀ (f g : Nat) (l : List Char), l.length ≤ f → l.length ≤ g →
      removeUrlsFuel f l = removeUrlsFuel g l
  | f, g, [], _, _ => by cases f <;> cases g <;> rfl
  | 0, _, _ :: _, hf, _ => by simp at hf
  | _ + 1, 0, _ :: _, _, hg => by simp at hg
  | f + 1, g + 1, c :: rest, hf, hg => by
    rw [removeUrlsFuel, removeUrlsFuel]
    cases h : matchUrl (c :: rest) with
    | some r =>
      have hr := matchUrl_length_lt h
      simp only [List.length_cons] at hf hg hr
      exact removeUrlsFuel_congr f g r (by omega) (by omega)
    | none =>
      simp only [List.length_cons] at hf hg
      rw [removeUrlsFuel_congr f g rest (by omega) (by omega)]
termination_by _ _ l => l.length
decreasing_by
  all_goals simp only [List.length_cons]
  all_goals try omega
  all_goals
    have hx := matchUrl_length_lt h
    simp only [List.length_cons] at hx
    omega

/-- `LLMSummarizer.clean_text`: empty in, empty out; else collapse
whitespace runs, strip URLs, cut to 3000 characters (appending `"..."`),
and strip the ends.  This is the spec's `TextNormalizer.normalize`. -/
def clean_text (text : String) : String :=
  if text = "" then ""
  else
    let t := collapseWs text.data
    let t := removeUrls t
    let t := if 3000 < t.length then t.take 3000 ++ "...".data else t
    String.mk (stripChars t)

/-- The sentence list of `fallback_summarize`:
`[s.strip() for s in re.split(r'[.!?]+', text) if s.strip() and len(s.strip()) > 10]`. -/
def sentenceFragments (text : String) : List (List Char) :=
  ((splitPunct text.data).map stripChars).filter
    (fun s => !s.isEmpty && decide (10 < s.length))

/-- `LLMSummarizer.fallback_summarize` with `max_sentences` at its default 2:
take the first two surviving fragments, join with `". "`, truncate past 250
characters with `"..."`; empty input gives `"No summary available."`, and an
empty join gives `"Brief summary not available."`. -/
def fallback_summarize (text : String) : String :=
  if text = "" then "No summary available."
  else
    let summary_sentences := (sentenceFragments text).take 2
    let summary := List.intercalate ". ".data summary_sentences
    let summary := if 250 < summary.length then summary.take 250 ++ "...".data else summary
    if summary.isEmpty then "Brief summary not available." else String.mk summary

/-- `summary[0].upper() + summary[1:] if len(summary) > 1 else summary.upper()`
from `enhance_summary`. -/
def capitalizeFirst (s : String) : String :=
  if 1 < s.length then
    match s.data with
    | [] => s
    | c :: rest => String.mk (c.toUpper :: rest)
  else String.mk (s.data.map Char.toUpper)

/-- `summary and summary[-1] not in '.!?'` from `enhance_summary`. -/
def needsPeriod (s : String) : Bool :=
  !s.isEmpty &&
    !(match s.data.getLast? with
      | some c => isPunct c
      | none => false)

/-- `LLMSummarizer.enhance_summary`: empty in gives the sentinel
`"No summary available."`; otherwise prepend `"Research: "` for the
`research` type when no marker word occurs in the lowercased summary,
capitalize the first character, and append `"."` when the last character
is not terminal punctuation. -/
def enhance_summary (summary : String) (summary_type : String) : String :=
  if summary = "" then "No summary available."
  else
    let s1 := if summary_type = "research" &&
        !(["research", "study", "paper", "method"].any
            (fun w => containsSub w.data (summary.data.map Char.toLower)))
      then "Research: " ++ summary else summary
    let s2 := capitalizeFirst s1
    if needsPeriod s2 then s2 ++ "." else s2

/-- The `max_length` chosen by `ai_summarize` per `summary_type`. -/
def absMaxLength (summary_type : String) : Nat :=
  if summary_type = "research" then 150 else if summary_type = "news" then 100 else 120

/-- The `min_length` chosen by `ai_summarize` per `summary_type`. -/
def absMinLength (summary_type : String) : Nat :=
  if summary_type = "research" then 60 else if summary_type = "news" then 40 else 50

/-- `LLMSummarizer.ai_summarize`.  `summarizer` abstracts `self.summarizer`:
`none` means the model never loaded; `some f` is the pipeline object, and
`f cleaned maxLen minLen = none` models a per-call exception (caught by the
`except` branch, which falls back to `fallback_summarize text`). -/
def ai_summarize (summarizer : Option (String → Nat → Nat → Option String))
    (text : String) (summary_type : String) : String :=
  match summarizer with
  | none => fallback_summarize text
  | some f =>
    if text = "" || decide ((stripStr text).length < 50) then fallback_summarize text
    else
      match f (clean_text text) (absMaxLength summary_type) (absMinLength summary_type) with
      | none => fallback_summarize text
      | some ai_summary => enhance_summary ai_summary summary_type

def research_words : List String :=
  ["paper", "research", "study", "arxiv", "algorithm", "model",
   "method", "approach", "framework", "evaluation", "experiment",
   "analysis", "dataset", "benchmark", "neural", "learning"]

def business_words : List String :=
  ["funding", "startup", "company", "investment", "acquisition",
   "partnership", "product", "launch", "market", "revenue",
   "ceo", "announcement", "enterprise", "commercial"]

def tool_words : List String :=
  ["tool", "open source", "github", "release", "library",
   "framework", "api", "platform", "software", "code",
   "implementation", "available", "download"]

def breakthrough_words : List String :=
  ["breakthrough", "milestone", "achievement", "record",
   "first", "new", "revolutionary", "significant", "major",
   "advance", "innovation", "discovery"]

/-- `(title + " " + (content or "")).lower()` as a character list. -/
def textOf (title content : String) : List Char :=
  (title ++ " " ++ content).data.map Char.toLower

/-- `sum(1 for word in kws if word in text)`: one point per keyword occurring
as a substring. -/
def countKw (kws : List String) (t : List Char) : Nat :=
  kws.countP (fun k => containsSub k.data t)

def research_score (t : List Char) : Nat := countKw research_words t

def business_score (t : List Char) : Nat := countKw business_words t

def tool_score (t : List Char) : Nat := countKw tool_words t

def breakthrough_score (t : List Char) : Nat := countKw breakthrough_words t

/-- The resolution step of `categorize_content` (source lines 182–196) on the
four raw keyword counts.  All dict values are doubled so that the Python
float `research_score + breakthrough_score * 0.5` becomes the integer
`2 * research + breakthrough` — every score is an exact multiple of 0.5, so
the comparisons are unchanged.  `max(scores, key=scores.get)` walks the dict
in insertion order (research, business, tools, breakthrough) and keeps the
current key unless a later value is strictly greater. -/
def codeResolve (research business tools breakthrough : Nat) : String :=
  let vr := 2 * research + breakthrough
  let vb := 2 * business
  let vt := 2 * tools
  let vk := 2 * breakthrough
  let v2 := if vr < vb then vb else vr
  let c2 := if vr < vb then "business" else "research"
  let v3 := if v2 < vt then vt else v2
  let c3 := if v2 < vt then "tools" else c2
  let v4 := if v3 < vk then vk else v3
  let c4 := if v3 < vk then "breakthrough" else c3
  if 2 ≤ breakthrough then "breakthrough"
  else if 0 < v4 then c4 else "news"

/-- `LLMSummarizer.categorize_content`. -/
def categorize_content (title content : String) : String :=
  let text := textOf title content
  codeResolve (research_score text) (business_score text)
    (tool_score text) (breakthrough_score text)

/-- One article entry as built in the loop of `generate_daily_summary`
(the spec's `CategorizedSummary`). -/
structure ArticleEntry where
  title : String
  summary : String
  source : String
  url : String
  category_detected : String
  summary_type : String
deriving DecidableEq

/-- The per-article body of the loop in `generate_daily_summary`
(source lines 216–241): classify, pick the summary type, summarize
`content or title`, and assemble the entry. -/
def process_article (summarizer : Option (String → Nat → Nat → Option String))
    (title content source url : String) : ArticleEntry :=
  let cat := categorize_content title content
  let summary_type := if cat = "research" || cat = "breakthrough" then "research" else "news"
  let ai_summary := ai_summarize summarizer (if content = "" then title else content) summary_type
  { title := title, summary := ai_summary, source := source, url := url,
    category_detected := cat, summary_type := summary_type }

/-- The five category buckets of `generate_daily_summary`. -/
structure Categories where
  breakthrough : List ArticleEntry
  research : List ArticleEntry
  business : List ArticleEntry
  tools : List ArticleEntry
  news : List ArticleEntry

/-- `total = sum(len(articles) for articles in categories.values())`. -/
def totalArticles (c : Categories) : Nat :=
  c.breakthrough.length + c.research.length + c.business.length
    + c.tools.length + c.news.length

/-- `"═" * 55 + "\n"`, the section separator of `format_enhanced_email`. -/
def sepLine55 : String := String.mk (List.replicate 55 '═') ++ "\n"

/-- `"═" * 60`, the footer separator of `format_enhanced_email`. -/
def sepLine60 : String := String.mk (List.replicate 60 '═')

/-- The three lines rendered per item in every section of
`format_enhanced_email` (only the leading emoji differs by section). -/
def itemLine (emoji : String) (it : ArticleEntry) : String :=
  emoji ++ it.title ++ "\n   🧠 AI Analysis: " ++ it.summary
    ++ "\n   📍 Source: " ++ it.source ++ "\n\n"

/-- `LLMSummarizer.format_enhanced_email`.  The two timestamp strings
(`datetime.now().strftime('%B %d, %Y')` and
`datetime.now().strftime('%Y-%m-%d at %H:%M UTC')`) are abstracted as the
parameters `date` and `nowStr`. -/
def format_enhanced_email (date nowStr : String) (c : Categories) : String :=
  let total := totalArticles c
  let email := "🤖 Your AI-Powered Daily Research Summary - " ++ date
    ++ "\n\n🌟 Today's AI Intelligence Report\n"
    ++ String.mk (List.replicate 39 '═')
    ++ "\n\nHello! Your AI assistant analyzed " ++ toString total
    ++ " articles today and found some fascinating developments:\n\n"
  let email := if !c.breakthrough.isEmpty then
      email ++ "🚀 BREAKTHROUGH DISCOVERIES (" ++ toString c.breakthrough.length ++ ")\n"
        ++ sepLine55 ++ String.join ((c.breakthrough.take 2).map (itemLine "💥 "))
    else email
  let email := if !c.research.isEmpty then
      email ++ "🔬 RESEARCH PAPERS (" ++ toString c.research.length ++ ")\n"
        ++ sepLine55 ++ String.join ((c.research.take 3).map (itemLine "📄 "))
    else email
  let email := if !c.business.isEmpty then
      email ++ "💼 INDUSTRY & BUSINESS (" ++ toString c.business.length ++ ")\n"
        ++ sepLine55 ++ String.join ((c.business.take 3).map (itemLine "💰 "))
    else email
  let email := if !c.tools.isEmpty then
      email ++ "🛠️ NEW TOOLS & RESOURCES (" ++ toString c.tools.length ++ ")\n"
        ++ sepLine55 ++ String.join (c.tools.map (itemLine "⚒️  "))
    else email
  let email := if !c.news.isEmpty then
      email ++ "📰 GENERAL AI NEWS (" ++ toString c.news.length ++ ")\n"
        ++ sepLine55 ++ String.join ((c.news.take 3).map (itemLine "📢 "))
    else email
  email ++ "\n" ++ sepLine60 ++ "\n🤖 Powered by Open-Source AI Summarization\n📊 Processed "
    ++ toString total ++ " articles with artificial intelligence\n⏰ Generated on "
    ++ nowStr ++ "\n" ++ sepLine60 ++ "\n"

set_option maxRecDepth 10000

/-- Modelled from the spec's resolution words, for comparison with
`codeResolve` (C2): the winner is the first category in the priority order
research > business > tools > breakthrough whose score is at least every
other score; a winning score of `0` yields `news`.  Scores are doubled
exactly as in `codeResolve` (the spec's `research_score` already includes
the `0.5 ×` breakthrough contribution). -/
def resolveSpec (research business tools breakthrough : Nat) : String :=
  let vr := 2 * research + breakthrough
  let vb := 2 * business
  let vt := 2 * tools
  let vk := 2 * breakthrough
  if vb ≤ vr ∧ vt ≤ vr ∧ vk ≤ vr then (if 0 < vr then "research" else "news")
  else if vr ≤ vb ∧ vt ≤ vb ∧ vk ≤ vb then (if 0 < vb then "business" else "news")
  else if vr ≤ vt ∧ vb ≤ vt ∧ vk ≤ vt then (if 0 < vt then "tools" else "news")
  else (if 0 < vk then "breakthrough" else "news")

/-- Below the breakthrough-override threshold, the code's
first-strictly-greater-wins walk over the score dict agrees with the spec's
priority-ordered maximum. -/
theorem codeResolve_eq_resolveSpec (r b t k : Nat) (hk : k < 2) :
    codeResolve r b t k = resolveSpec r b t k := by
  simp only [codeResolve, resolveSpec]
  split_ifs <;> first | rfl | omega

/-- `codeResolve` can only answer one of the five fixed categories. -/
theorem codeResolve_mem (r b t k : Nat) :
    codeResolve r b t k = "breakthrough" ∨ codeResolve r b t k = "research" ∨
    codeResolve r b t k = "business" ∨ codeResolve r b t k = "tools" ∨
    codeResolve r b t k = "news" := by
  simp only [codeResolve]
  split_ifs <;> simp

/-- C1.  Breakthrough override: whenever the lowercased concatenation of
title and content contains at least 2 of the breakthrough keywords
(`breakthrough_score ≥ 2`), `categorize_content` returns `"breakthrough"`,
whatever the other scores are. -/
theorem C1_breakthrough_override (title content : String)
    (h : 2 ≤ breakthrough_score (textOf title content)) :
    categorize_content title content = "breakthrough" := by
  unfold categorize_content codeResolve
  simp [h]

/-- Witness for C1 at a concrete input whose business score (4) strictly
exceeds its breakthrough score (2). -/
theorem C1_breakthrough_override_witness :
    2 ≤ breakthrough_score
        (textOf "breakthrough milestone funding startup company investment" "") ∧
    business_score
        (textOf "breakthrough milestone funding startup company investment" "") = 4 ∧
    categorize_content "breakthrough milestone funding startup company investment" ""
      = "breakthrough" :=
  ⟨by decide, by decide,
   C1_breakthrough_override "breakthrough milestone funding startup company investment" ""
     (by decide)⟩

/-- C2, counterexample to the claim as stated: the text
`"paper funding tool github"` contains exactly one research keyword
(`paper`), exactly one business keyword (`funding`) and no breakthrough
keyword, yet it classifies as `"tools"` (two tools keywords outscore the
tie), not `"research"`. -/
theorem C2_counterexample :
    research_score (textOf "paper funding tool github" "") = 1 ∧
    business_score (textOf "paper funding tool github" "") = 1 ∧
    breakthrough_score (textOf "paper funding tool github" "") = 0 ∧
    tool_score (textOf "paper funding tool github" "") = 2 ∧
    categorize_content "paper funding tool github" "" = "tools" ∧
    categorize_content "paper funding tool github" "" ≠ "research" := by
  refine ⟨by decide, by decide, by decide, by decide, by decide, by decide⟩

/-- C2 as amended: when `breakthrough_score < 2`, `categorize_content`
returns the category with the strictly highest score, ties resolved by the
priority order research > business > tools > breakthrough and a winning
score of 0 giving `"news"` (`resolveSpec`); a text with exactly one research
keyword, one business keyword, no breakthrough keyword **and at most one
tools keyword** yields `"research"`; and the result is always one of the
five fixed categories. -/
theorem C2_tie_break (title content : String) :
    (breakthrough_score (textOf title content) < 2 →
      categorize_content title content =
        resolveSpec (research_score (textOf title content))
          (business_score (textOf title content))
          (tool_score (textOf title content))
          (breakthrough_score (textOf title content))) ∧
    (research_score (textOf title content) = 1 →
      business_score (textOf title content) = 1 →
      breakthrough_score (textOf title content) = 0 →
      tool_score (textOf title content) ≤ 1 →
      categorize_content title content = "research") ∧
    (categorize_content title content = "breakthrough" ∨
     categorize_content title content = "research" ∨
     categorize_content title content = "business" ∨
     categorize_content title content = "tools" ∨
     categorize_content title content = "news") := by
  refine ⟨?_, ?_, ?_⟩
  · intro hk
    simp only [categorize_content]
    exact codeResolve_eq_resolveSpec _ _ _ _ hk
  · intro h1 h2 h3 h4
    simp only [categorize_content]
    rw [h1, h2, h3]
    have : tool_score (textOf title content) = 0 ∨
        tool_score (textOf title content) = 1 := by omega
    rcases this with h | h <;> rw [h] <;> decide
  · simp only [categorize_content]
    exact codeResolve_mem _ _ _ _

/-- Witness for C2 at `"paper funding"`: one research keyword, one business
keyword, no breakthrough and no tools keyword, classified `"research"`. -/
theorem C2_tie_break_witness :
    categorize_content "paper funding" "" = "research" ∧
    categorize_content "paper funding" "" =
      resolveSpec (research_score (textOf "paper funding" ""))
        (business_score (textOf "paper funding" ""))
        (tool_score (textOf "paper funding" ""))
        (breakthrough_score (textOf "paper funding" "")) :=
  ⟨(C2_tie_break "paper funding" "").2.1 (by decide) (by decide) (by decide) (by decide),
   (C2_tie_break "paper funding" "").1 (by decide)⟩

/-- C3, counterexample to the claim as stated: on the acceptance article's
content the extractive fallback joins the first two surviving sentences with
`". "` and appends nothing after the second, so the result lacks the
trailing period the claim demands. -/
theorem C3_counterexample :
    fallback_summarize "Scientists announced a major milestone. The new method improves accuracy. This is a first for the field."
      = "Scientists announced a major milestone. The new method improves accuracy" ∧
    fallback_summarize "Scientists announced a major milestone. The new method improves accuracy. This is a first for the field."
      ≠ "Scientists announced a major milestone. The new method improves accuracy." :=
  ⟨by decide, by decide⟩

/-- C3 as amended: the acceptance article classifies as `"breakthrough"`
(the override fires), and the extractive fallback on the content returns the
first two sentences joined by `". "` — without a trailing period. -/
theorem C3_end_to_end :
    categorize_content "New AI Breakthrough Achieved in Learning Research"
        "Scientists announced a major milestone. The new method improves accuracy. This is a first for the field."
      = "breakthrough" ∧
    fallback_summarize "Scientists announced a major milestone. The new method improves accuracy. This is a first for the field."
      = "Scientists announced a major milestone. The new method improves accuracy" :=
  ⟨by decide, by decide⟩

/-- C4, counterexample to the claim as stated: the empty input returns the
sentinel `"No summary available."`, not `"Brief summary not available."`;
and an input whose split yields exactly one surviving fragment (fewer than
2) returns that fragment, not a sentinel at all. -/
theorem C4_counterexample :
    fallback_summarize "" = "No summary available." ∧
    ("No summary available." : String) ≠ "Brief summary not available." ∧
    (sentenceFragments "This sentence is long enough").length = 1 ∧
    fallback_summarize "This sentence is long enough" = "This sentence is long enough" ∧
    ("This sentence is long enough" : String) ≠ "Brief summary not available." :=
  ⟨by decide, by decide, by decide, by decide, by decide⟩

/-- C4 as amended: `"Brief summary not available."` is returned exactly for
the non-empty inputs with **zero** surviving fragments (trimmed length > 10),
while the empty input returns `"No summary available."`. -/
theorem C4_sentinel (text : String) :
    (text = "" → fallback_summarize text = "No summary available.") ∧
    (text ≠ "" → sentenceFragments text = [] →
      fallback_summarize text = "Brief summary not available.") := by
  constructor
  · intro h
    rw [h]
    decide
  · intro h hf
    unfold fallback_summarize
    rw [if_neg h, hf]
    decide

/-- Witness for C4 at the empty string and at `"hi."` (whose only fragment
is too short to survive the noise filter). -/
theorem C4_sentinel_witness :
    fallback_summarize "" = "No summary available." ∧
    ("hi." : String) ≠ "" ∧
    sentenceFragments "hi." = [] ∧
    fallback_summarize "hi." = "Brief summary not available." :=
  ⟨(C4_sentinel "").1 rfl, by decide, by decide,
   (C4_sentinel "hi.").2 (by decide) (by decide)⟩

/-- C5, counterexample to the claim as stated: for the text
`"a" ++ 60 spaces ++ "a"`, the stripped length is 62 (≥ 50), so the code
attempts the abstractive call — yet `normalize(text)` is `"a a"` of length
3 < 50, where the claim says the extractive fallback must be used.  The
model answer is indeed used, and differs from the extractive result. -/
theorem C5_counterexample :
    50 ≤ (stripStr "a                                                            a").length ∧
    (clean_text "a                                                            a").length < 50 ∧
    ai_summarize (some (fun _ _ _ => some "model output"))
        "a                                                            a" "general"
      = "Model output." ∧
    ai_summarize (some (fun _ _ _ => some "model output"))
        "a                                                            a" "general"
      ≠ fallback_summarize "a                                                            a" :=
  ⟨by decide, by decide, by decide, by decide⟩

/-- C5 as amended: the orchestrator attempts the abstractive call exactly
when a model is present and `len(text.strip()) ≥ 50` (not the length of
`normalize(text)`); the call receives `clean_text text`; with no model, a
too-short text, or a failing call the extractive fallback on the original
text is returned, and a successful call's answer is post-processed by
`enhance_summary`. -/
theorem C5_gating (f : String → Nat → Nat → Option String) (text st : String) :
    (ai_summarize none text st = fallback_summarize text) ∧
    ((stripStr text).length < 50 →
      ai_summarize (some f) text st = fallback_summarize text) ∧
    (50 ≤ (stripStr text).length →
      f (clean_text text) (absMaxLength st) (absMinLength st) = none →
      ai_summarize (some f) text st = fallback_summarize text) ∧
    (∀ s, 50 ≤ (stripStr text).length →
      f (clean_text text) (absMaxLength st) (absMinLength st) = some s →
      ai_summarize (some f) text st = enhance_summary s st) := by
  have hempty : text = "" → (stripStr text).length = 0 := by
    intro h
    rw [h]
    decide
  refine ⟨rfl, ?_, ?_, ?_⟩
  · intro h
    simp only [ai_summarize]
    rw [if_pos]
    simp [h]
  · intro h hf
    have ht : ¬(text = "") := fun e => by have := hempty e; omega
    have h2 : ¬((stripStr text).length < 50) := by omega
    simp only [ai_summarize]
    rw [if_neg (by simp [ht, h2]), hf]
  · intro s h hs
    have ht : ¬(text = "") := fun e => by have := hempty e; omega
    have h2 : ¬((stripStr text).length < 50) := by omega
    simp only [ai_summarize]
    rw [if_neg (by simp [ht, h2]), hs]

/-- Witness for C5: a too-short text falls back; a 74-character text with a
failing model falls back; the same text with a succeeding model returns the
enhanced model answer. -/
theorem C5_gating_witness :
    ai_summarize (some (fun _ _ _ => none)) "short" "news" = fallback_summarize "short" ∧
    ai_summarize (some (fun _ _ _ => none))
        "This is a sufficiently long article body for the abstractive gate, yes." "news"
      = fallback_summarize
          "This is a sufficiently long article body for the abstractive gate, yes." ∧
    ai_summarize (some (fun _ _ _ => some "ok"))
        "This is a sufficiently long article body for the abstractive gate, yes." "news"
      = enhance_summary "ok" "news" :=
  ⟨(C5_gating (fun _ _ _ => none) "short" "news").2.1 (by decide),
   (C5_gating (fun _ _ _ => none)
      "This is a sufficiently long article body for the abstractive gate, yes." "news").2.2.1
     (by decide) rfl,
   (C5_gating (fun _ _ _ => some "ok")
      "This is a sufficiently long article body for the abstractive gate, yes." "news").2.2.2
     "ok" (by decide) rfl⟩

/-- C6: a failing per-call model invocation never propagates —
`ai_summarize` catches it and returns the extractive fallback on the
original text. -/
theorem C6_model_failure (f : String → Nat → Nat → Option String)
    (text summary_type : String)
    (h : f (clean_text text) (absMaxLength summary_type) (absMinLength summary_type) = none) :
    ai_summarize (some f) text summary_type = fallback_summarize text := by
  simp only [ai_summarize]
  by_cases hg : (decide (text = "") || decide ((stripStr text).length < 50)) = true
  · rw [if_pos hg]
  · rw [if_neg hg, h]

/-- Witness for C6 with a model that always raises. -/
theorem C6_model_failure_witness :
    ai_summarize (some (fun _ _ _ => none))
      "This is a sufficiently long article body for the abstractive gate, yes." "news"
      = fallback_summarize
          "This is a sufficiently long article body for the abstractive gate, yes." :=
  C6_model_failure (fun _ _ _ => none)
    "This is a sufficiently long article body for the abstractive gate, yes." "news" rfl

theorem length_mk (l : List Char) : (String.mk l).length = l.length := rfl

theorem mk_isEmpty_ne (l : List Char) (h : l.isEmpty ≠ true) : String.mk l ≠ "" := by
  intro e
  apply h
  have hd : l = [] := congrArg String.data e
  rw [hd]
  rfl

theorem append_ne_empty_left (a b : String) (ha : a ≠ "") : a ++ b ≠ "" := by
  intro e
  have h2 : a.data ++ b.data = [] := by
    have h3 := congrArg String.data e
    rwa [String.data_append] at h3
  have h4 : a.data = [] := (List.append_eq_nil.mp h2).1
  exact ha (String.ext h4)

theorem append_ne_empty_right (a b : String) (hb : b ≠ "") : a ++ b ≠ "" := by
  intro e
  have h2 : a.data ++ b.data = [] := by
    have h3 := congrArg String.data e
    rwa [String.data_append] at h3
  have h4 : b.data = [] := (List.append_eq_nil.mp h2).2
  exact hb (String.ext h4)

/-- The extractive fallback never returns the empty string: both sentinels
are non-empty, and a non-sentinel answer passed the `if summary` test. -/
theorem fallback_summarize_ne_empty (text : String) : fallback_summarize text ≠ "" := by
  simp only [fallback_summarize]
  split_ifs <;> first | decide | (exact mk_isEmpty_ne _ (by assumption))

/-- The extractive fallback never exceeds 253 characters: an untruncated
join is at most 250, a truncated one is exactly 250 + 3, and the sentinels
are 21 and 28 characters. -/
theorem fallback_summarize_length_le (text : String) :
    (fallback_summarize text).length ≤ 253 := by
  simp only [fallback_summarize]
  split_ifs <;>
    first
      | decide
      | (rw [length_mk, List.length_append, List.length_take]
         have hD : ("...".data).length = 3 := rfl
         rw [hD]
         omega)
      | (rw [length_mk]
         omega)

theorem capitalizeFirst_ne_empty (s : String) (h : s ≠ "") : capitalizeFirst s ≠ "" := by
  have hd : s.data ≠ [] := fun e => h (String.ext e)
  simp only [capitalizeFirst]
  split_ifs
  · cases hs : s.data with
    | nil => exact absurd hs hd
    | cons c rest => exact mk_isEmpty_ne _ (by simp)
  · apply mk_isEmpty_ne
    simp [hd]

/-- `enhance_summary` never returns the empty string. -/
theorem enhance_summary_ne_empty (s st : String) : enhance_summary s st ≠ "" := by
  simp only [enhance_summary]
  split_ifs with h1 h2 h3 h4
  · decide
  · exact append_ne_empty_right _ _ (by decide)
  · exact capitalizeFirst_ne_empty _ (append_ne_empty_left _ _ (by decide))
  · exact append_ne_empty_right _ _ (by decide)
  · exact capitalizeFirst_ne_empty _ h1

/-- `ai_summarize` never returns the empty string, whatever the model does. -/
theorem ai_summarize_ne_empty (summarizer : Option (String → Nat → Nat → Option String))
    (text st : String) : ai_summarize summarizer text st ≠ "" := by
  cases summarizer with
  | none => exact fallback_summarize_ne_empty text
  | some f =>
    simp only [ai_summarize]
    split_ifs with h
    · exact fallback_summarize_ne_empty text
    · cases hf : f (clean_text text) (absMaxLength st) (absMinLength st) with
      | none => exact fallback_summarize_ne_empty text
      | some s => exact enhance_summary_ne_empty s st

/-- C7.  Non-empty-summary invariant: every article entry built by the
pipeline loop carries a non-empty `summary`, whatever the title, content
(possibly empty), model availability, and per-call model behavior. -/
theorem C7_summary_nonempty (summarizer : Option (String → Nat → Nat → Option String))
    (title content source url : String) :
    (process_article summarizer title content source url).summary ≠ "" := by
  simp only [process_article]
  exact ai_summarize_ne_empty _ _ _

/-- C8.  Output bound and determinism of the extractive fallback on
non-empty input: non-empty result, at most 253 characters (250 plus the
3-character ellipsis), and two calls with the same input agree. -/
theorem C8_extractive_bound (text : String) (_h : text ≠ "") :
    fallback_summarize text ≠ "" ∧ (fallback_summarize text).length ≤ 253 ∧
    fallback_summarize text = fallback_summarize text :=
  ⟨fallback_summarize_ne_empty text, fallback_summarize_length_le text, rfl⟩

/-- Witness for C8 at `"hello"`. -/
theorem C8_extractive_bound_witness :
    ("hello" : String) ≠ "" ∧ fallback_summarize "hello" ≠ "" ∧
    (fallback_summarize "hello").length ≤ 253 :=
  ⟨by decide, (C8_extractive_bound "hello" (by decide)).1,
   (C8_extractive_bound "hello" (by decide)).2.1⟩

/-- Modelled from the spec's rendering words (`ReportAssembler.assemble`),
for comparison with `format_enhanced_email` in C9: a section with zero
members renders nothing; otherwise it renders a header carrying the true
(uncapped) member count, a separator line, and the first `cap` items
(`none` meaning unbounded). -/
def renderSectionSpec (header itemEmoji : String) (cap : Option Nat)
    (items : List ArticleEntry) : String :=
  if items.isEmpty then ""
  else
    header ++ " (" ++ toString items.length ++ ")\n" ++ sepLine55
      ++ String.join ((items.take (cap.getD items.length)).map (itemLine itemEmoji))

/-- C9.  Report rendering: the email is exactly the intro (showing the
total), then the five sections in the fixed order breakthrough, research,
business, tools, news — capped at 2, 3, 3, unbounded and 3 rendered items
respectively, each header showing the true uncapped count, empty categories
rendering nothing — then the footer; and the reported total is the sum of
the five uncapped section sizes. -/
theorem C9_report_rendering (date nowStr : String) (c : Categories) :
    format_enhanced_email date nowStr c =
      ("🤖 Your AI-Powered Daily Research Summary - " ++ date
        ++ "\n\n🌟 Today's AI Intelligence Report\n" ++ String.mk (List.replicate 39 '═')
        ++ "\n\nHello! Your AI assistant analyzed " ++ toString (totalArticles c)
        ++ " articles today and found some fascinating developments:\n\n")
      ++ renderSectionSpec "🚀 BREAKTHROUGH DISCOVERIES" "💥 " (some 2) c.breakthrough
      ++ renderSectionSpec "🔬 RESEARCH PAPERS" "📄 " (some 3) c.research
      ++ renderSectionSpec "💼 INDUSTRY & BUSINESS" "💰 " (some 3) c.business
      ++ renderSectionSpec "🛠️ NEW TOOLS & RESOURCES" "⚒️  " none c.tools
      ++ renderSectionSpec "📰 GENERAL AI NEWS" "📢 " (some 3) c.news
      ++ ("\n" ++ sepLine60 ++ "\n🤖 Powered by Open-Source AI Summarization\n📊 Processed "
        ++ toString (totalArticles c) ++ " articles with artificial intelligence\n⏰ Generated on "
        ++ nowStr ++ "\n" ++ sepLine60 ++ "\n") ∧
    totalArticles c = c.breakthrough.length + c.research.length + c.business.length
      + c.tools.length + c.news.length := by
  refine ⟨?_, rfl⟩
  obtain ⟨lb, lr, lbu, lt, ln⟩ := c
  have e1 : ("🚀 BREAKTHROUGH DISCOVERIES" : String) ++ " (" = "🚀 BREAKTHROUGH DISCOVERIES (" := rfl
  have e2 : ("🔬 RESEARCH PAPERS" : String) ++ " (" = "🔬 RESEARCH PAPERS (" := rfl
  have e3 : ("💼 INDUSTRY & BUSINESS" : String) ++ " (" = "💼 INDUSTRY & BUSINESS (" := rfl
  have e4 : ("🛠️ NEW TOOLS & RESOURCES" : String) ++ " (" = "🛠️ NEW TOOLS & RESOURCES (" := rfl
  have e5 : ("📰 GENERAL AI NEWS" : String) ++ " (" = "📰 GENERAL AI NEWS (" := rfl
  simp only [format_enhanced_email, renderSectionSpec, totalArticles, Option.getD,
    ← e1, ← e2, ← e3, ← e4, ← e5]
  cases lb <;> cases lr <;> cases lbu <;> cases lt <;> cases ln <;>
    simp only [List.isEmpty_nil, List.isEmpty_cons, Bool.not_true, Bool.not_false,
      if_true, if_false, ite_true, ite_false, Bool.false_eq_true, Bool.true_eq_false,
      List.take_length, String.append_assoc, String.append_empty, String.empty_append]

/-- C10.  Substring keyword matching: in `classify("news", "")` the
breakthrough keyword `"new"` matches inside the word `"news"`, so the
breakthrough raw count is 1 (hence the dict scores are breakthrough 1 and
research 0 + 0.5 × 1 = 0.5) and the article classifies `"breakthrough"`,
not `"news"`. -/
theorem C10_substring_matching :
    containsSub "new".data (textOf "news" "") = true ∧
    breakthrough_score (textOf "news" "") = 1 ∧
    research_score (textOf "news" "") = 0 ∧
    business_score (textOf "news" "") = 0 ∧
    tool_score (textOf "news" "") = 0 ∧
    categorize_content "news" "" = "breakthrough" ∧
    categorize_content "news" "" ≠ "news" :=
  ⟨by decide, by decide, by decide, by decide, by decide, by decide, by decide⟩
